import Mathlib

/-!
Verification development for the nut/bolt detection backend
(`src/backend/app.py`): a shallow embedding of the image-ingestion
helper (`decode_image`), the detection post-processing pipeline
(`run_detection`), the HTTP route handlers (`detect`, `get_config`,
`update_config`, `server_error`), and proofs of the specified
properties.

Modelling conventions:
* Python floats are embedded as rationals (`ℚ`); `round(x, n)` becomes
  `roundQ n x`.
* Python dicts that are consumed via key lookup are embedded as
  association lists queried with `List.lookup` (a dict has no duplicate
  keys, and `lookup` returns the first hit, so this is faithful).
* Opaque third-party calls (the YOLO model invocation, base64 decoding,
  PIL image parsing) are parameters of the embedded functions; the code
  of this repository around them is embedded concretely.
* The mutable module-level configuration (`CONFIDENCE_THRESHOLD`,
  `IOU_THRESHOLD`) is threaded explicitly as a `ConfigState` value:
  every embedded handler takes the state before the call and returns
  the state after it.
-/

namespace NutBolt

/-! ### Constants (module level, `app.py` lines 23-39) -/

def CONFIDENCE_THRESHOLD_INIT : ℚ := 0.5
def IOU_THRESHOLD_INIT : ℚ := 0.45
def INPUT_SIZE : ℕ := 640

def MAX_BOX_RATIO : ℚ := 1.0
def MIN_BOX_SIZE : ℚ := 5
def MAX_BOX_SIZE : ℚ := 2000

def CLASS_NAMES : List String := ["Bolt", "Nut"]

/-- The dict `CLASS_COLORS`: the static class-name → display-color dict. -/
def CLASS_COLORS : List (String × (ℕ × ℕ × ℕ)) :=
  [("Bolt", (0, 191, 255)), ("Nut", (255, 165, 0))]

/-! ### Data model -/

/-- The mutable module-level configuration globals. -/
structure ConfigState where
  CONFIDENCE_THRESHOLD : ℚ
  IOU_THRESHOLD : ℚ
deriving DecidableEq

/-- The configuration at process start (`app.py` lines 23-24). -/
def initConfig : ConfigState :=
  { CONFIDENCE_THRESHOLD := CONFIDENCE_THRESHOLD_INIT,
    IOU_THRESHOLD := IOU_THRESHOLD_INIT }

/-- A decoded pixel buffer; only its shape is observable to the embedded
code (`image.shape[:2] = (height, width)`). -/
structure RawImage where
  height : ℕ
  width : ℕ
deriving DecidableEq

/-- One raw box from the detector: `box.xyxy[0] = (x1,y1,x2,y2)`,
`box.conf[0]`, `box.cls[0]`. -/
structure RawBox where
  x1 : ℚ
  y1 : ℚ
  x2 : ℚ
  y2 : ℚ
  conf : ℚ
  cls : ℕ
deriving DecidableEq

structure BBox where
  x1 : ℚ
  y1 : ℚ
  x2 : ℚ
  y2 : ℚ
deriving DecidableEq

/-- One emitted detection record (`app.py` lines 182-192). -/
structure Detection where
  className : String
  confidence : ℚ
  bbox : BBox
  color : ℕ × ℕ × ℕ
deriving DecidableEq

/-- The YOLO call returns a list of results; each result has a `boxes`
field that is either `None` or a list of boxes. -/
abbrev YoloResults := List (Option (List RawBox))

/-- The opaque model invocation: given the image and the current
confidence and IOU thresholds it returns results or raises. -/
abbrev ModelCall := RawImage → ℚ → ℚ → Except String YoloResults

/-- The map `model.names.get(class_id, ...)`: the detector-supplied id → name
mapping, opaque model state. -/
abbrev ModelNames := ℕ → Option String

/-! ### Rounding

`round(x, n)` on Python floats, embedded over `ℚ`: multiply by `10^n`,
round to the nearest integer, divide back.  (Python rounds ties to
even; the tie-breaking convention is irrelevant to every theorem below
because both sides of each equation use the same `roundQ`.) -/

def roundQ (n : ℕ) (q : ℚ) : ℚ := ((round (q * 10 ^ n) : ℤ) : ℚ) / 10 ^ n

/-! ### Detection post-processing (`run_detection`, lines 110-197) -/

/-- Class-index → class-name mapping (lines 173-177): the fixed
`CLASS_NAMES` list when the index is in range, otherwise the
detector-supplied name, otherwise a synthetic name. -/
def classNameOf (names : ModelNames) (cid : ℕ) : String :=
  if cid < CLASS_NAMES.length then CLASS_NAMES.getD cid ""
  else (names cid).getD ("class_" ++ toString cid)

/-- The record appended for an accepted box (lines 168-192). -/
def emitBox (names : ModelNames) (b : RawBox) : Detection :=
  let cn := classNameOf names b.cls
  { className := cn,
    confidence := roundQ 3 b.conf,
    bbox := { x1 := roundQ 2 b.x1, y1 := roundQ 2 b.y1,
              x2 := roundQ 2 b.x2, y2 := roundQ 2 b.y2 },
    color := (CLASS_COLORS.lookup cn).getD (0, 255, 0) }

/-- The body of the per-box loop (lines 142-192): the three size
filters in source order, then the emitted record; `none` models
`continue`. -/
def processBox (imgH imgW : ℕ) (names : ModelNames) (b : RawBox) :
    Option Detection :=
  let w := b.x2 - b.x1
  let h := b.y2 - b.y1
  if w > MAX_BOX_SIZE ∨ h > MAX_BOX_SIZE then none
  else if w < MIN_BOX_SIZE ∨ h < MIN_BOX_SIZE then none
  else if w * h / ((imgW : ℚ) * (imgH : ℚ)) > MAX_BOX_RATIO then none
  else some (emitBox names b)

/-- The inner `for box in boxes` loop, accumulating onto `acc`. -/
def processBoxes (imgH imgW : ℕ) (names : ModelNames)
    (acc : List Detection) (boxes : List RawBox) : List Detection :=
  boxes.foldl
    (fun acc2 b =>
      match processBox imgH imgW names b with
      | none => acc2
      | some d => acc2 ++ [d])
    acc

/-- The outer `for result in results` loop (lines 133-192), skipping
results whose `boxes` field is `None`. -/
def processResults (imgH imgW : ℕ) (names : ModelNames)
    (results : YoloResults) : List Detection :=
  results.foldl
    (fun acc ob =>
      match ob with
      | none => acc
      | some boxes => processBoxes imgH imgW names acc boxes)
    []

/-- The function `run_detection` (lines 110-197): checks the model global, invokes
the model with the current thresholds, post-processes, and catches the
model exception as an error string.  The function reads the
configuration state and returns it untouched (the Python function
contains no assignment to any global). -/
def run_detection (st : ConfigState) (modelLoaded : Bool)
    (modelCall : ModelCall) (names : ModelNames) (image : RawImage) :
    ConfigState × Except String (List Detection) :=
  if modelLoaded = false then (st, .error "Model not loaded")
  else
    match modelCall image st.CONFIDENCE_THRESHOLD st.IOU_THRESHOLD with
    | .error e => (st, .error e)
    | .ok results =>
        (st, .ok (processResults image.height image.width names results))

/-! ### Derived filter predicate and flattening (spec side of C8) -/

/-- A raw box survives all three size filters. -/
def acceptBox (imgH imgW : ℕ) (b : RawBox) : Bool :=
  let w := b.x2 - b.x1
  let h := b.y2 - b.y1
  ¬(w > MAX_BOX_SIZE ∨ h > MAX_BOX_SIZE) ∧
    ¬(w < MIN_BOX_SIZE ∨ h < MIN_BOX_SIZE) ∧
    ¬(w * h / ((imgW : ℚ) * (imgH : ℚ)) > MAX_BOX_RATIO)

/-- The flat raw-box sequence of a detector call, in emission order. -/
def flattenResults (results : YoloResults) : List RawBox :=
  results.foldl (fun acc ob => acc ++ ob.getD []) []

/-! ### Class counts (`detect`, lines 263-267)

`counts[class_name] = counts.get(class_name, 0) + 1` over an
insertion-ordered dict, embedded as an association list. -/

/-- One iteration of the counting loop: bump the entry for `k`,
inserting it at the end when absent. -/
def bumpCount (m : List (String × ℕ)) (k : String) : List (String × ℕ) :=
  if m.any (fun p => p.1 = k) then
    m.map (fun p => if p.1 = k then (p.1, p.2 + 1) else p)
  else m ++ [(k, 1)]

/-- The `counts` dict built from the detection list. -/
def countsOf (dets : List Detection) : List (String × ℕ) :=
  dets.foldl (fun m d => bumpCount m d.className) []

/-! ### Configuration handlers (`get_config`, `update_config`,
`server_error`; lines 282-333) -/

/-- A JSON value arriving in the `POST /config` body, abstracted to the
only thing the handler does with it: `float(v)` either yields a value
or raises. -/
inductive PyVal where
  | coercible (q : ℚ)
  | uncoercible
deriving DecidableEq

/-- The coercion `float(v)` to each recognized config value. -/
def pyFloat : PyVal → Except String ℚ
  | .coercible q => .ok q
  | .uncoercible => .error "could not convert to float"

/-- The `GET /config` response body (lines 285-291). -/
structure ConfigView where
  confidence_threshold : ℚ
  iou_threshold : ℚ
  input_size : ℕ
  class_names : List String
  class_colors : List (String × (ℕ × ℕ × ℕ))
deriving DecidableEq

def get_config (st : ConfigState) : ConfigView :=
  { confidence_threshold := st.CONFIDENCE_THRESHOLD,
    iou_threshold := st.IOU_THRESHOLD,
    input_size := INPUT_SIZE,
    class_names := CLASS_NAMES,
    class_colors := CLASS_COLORS }

/-- The handler `update_config` (lines 294-311): two sequential `if key in data`
blocks, each assigning the coerced float to its global.  The returned
state is the global state when the handler leaves (normally or by the
coercion raising); the `Except` value is the success body or the raised
message. -/
def update_config (st : ConfigState) (data : List (String × PyVal)) :
    ConfigState × Except String (ℚ × ℚ) :=
  match data.lookup "confidence_threshold" with
  | none =>
      (match data.lookup "iou_threshold" with
       | none => (st, .ok (st.CONFIDENCE_THRESHOLD, st.IOU_THRESHOLD))
       | some v =>
           match pyFloat v with
           | .error e => (st, .error e)
           | .ok q =>
               ({ st with IOU_THRESHOLD := q },
                .ok (st.CONFIDENCE_THRESHOLD, q)))
  | some v =>
      match pyFloat v with
      | .error e => (st, .error e)
      | .ok q =>
          let st1 : ConfigState := { st with CONFIDENCE_THRESHOLD := q }
          match data.lookup "iou_threshold" with
          | none => (st1, .ok (q, st1.IOU_THRESHOLD))
          | some w =>
              match pyFloat w with
              | .error e => (st1, .error e)
              | .ok r =>
                  ({ st1 with IOU_THRESHOLD := r }, .ok (q, r))

/-- The 500 error handler (lines 328-333): body fields
(`error`, `message`) and the status. -/
def server_error (e : String) : (String × String) × ℕ :=
  (("Internal server error", e), 500)

/-! ### The `/detect` route (lines 213-279) -/

/-- An error envelope `{success: false, error, detections: []}`. -/
structure FailureBody where
  success : Bool
  error : String
  detections : List Detection
deriving DecidableEq

/-- The success body (lines 269-279); the wall-clock
`processing_time_ms` field is outside the embedding. -/
structure SuccessBody where
  success : Bool
  detections : List Detection
  counts : List (String × ℕ)
  total : ℕ
  width : ℕ
  height : ℕ
deriving DecidableEq

/-- A `/detect` HTTP response: an error envelope with its status code,
or the 200 success body. -/
inductive DetectHttp where
  | fail (status : ℕ) (body : FailureBody)
  | ok (body : SuccessBody)
deriving DecidableEq

/-- The shape of `decode_image` seen from `detect`: opaque base64 + PIL + color
conversion chain that yields a pixel buffer or `None`. -/
abbrev Decoder := String → Option RawImage

/-- The `detect` handler (lines 213-279).  Checks, in source order: the
model global (503), the presence of the `image` field (400), the decode
result (400), the detection error (500); otherwise builds the success
body with the per-class counts and total.  `body = none` models a
request without a JSON object; `data = []` and a missing `"image"` key
both fail the `not data or 'image' not in data` test, and `[]` has no
`"image"` key, so the embedded test is the lookup alone. -/
def detect (st : ConfigState) (modelLoaded : Bool)
    (body : Option (List (String × String))) (decode : Decoder)
    (modelCall : ModelCall) (names : ModelNames) :
    ConfigState × DetectHttp :=
  if modelLoaded = false then
    (st, .fail 503
      { success := false,
        error := "Model not loaded. Please check server logs.",
        detections := [] })
  else
    match body with
    | none =>
        (st, .fail 400
          { success := false,
            error := "No image data provided. Send JSON with \"image\" field containing base64 data.",
            detections := [] })
    | some data =>
        match data.lookup "image" with
        | none =>
            (st, .fail 400
              { success := false,
                error := "No image data provided. Send JSON with \"image\" field containing base64 data.",
                detections := [] })
        | some imageStr =>
            match decode imageStr with
            | none =>
                (st, .fail 400
                  { success := false,
                    error := "Failed to decode image. Ensure valid base64 format.",
                    detections := [] })
            | some image =>
                match run_detection st modelLoaded modelCall names image with
                | (st2, .error e) =>
                    (st2, .fail 500
                      { success := false,
                        error := "Detection failed: " ++ e,
                        detections := [] })
                | (st2, .ok dets) =>
                    (st2, .ok
                      { success := true,
                        detections := dets,
                        counts := countsOf dets,
                        total := dets.length,
                        width := image.width,
                        height := image.height })

/-! ### Image ingestion string handling (`decode_image`, lines 83-107)

Python strings are embedded as `List Char`.  Only the data-URL
stripping (lines 87-88) is repository code; base64 decoding, PIL
parsing and the color conversions are opaque library calls. -/

/-- The test `',' in image_data`. -/
def containsComma : List Char → Bool
  | [] => false
  | c :: cs => c = ',' || containsComma cs

/-- The call `image_data.split(',')`: split at every comma, keeping empty
segments (Python `str.split` with an explicit separator). -/
def splitComma : List Char → List (List Char)
  | [] => [[]]
  | c :: cs =>
      if c = ',' then [] :: splitComma cs
      else
        match splitComma cs with
        | [] => [[c]]
        | g :: gs => (c :: g) :: gs

/-- The string handed to `base64.b64decode` (lines 87-91): when a comma
is present the source replaces the string by `split(',')[1]`. -/
def strippedImageData (s : List Char) : List Char :=
  if containsComma s then (splitComma s).getD 1 [] else s

/-- The function `decode_image`: the embedded stripping, then the opaque
base64 + PIL + channel-conversion chain. -/
def decode_image (chain : List Char → Option RawImage)
    (image_data : List Char) : Option RawImage :=
  chain (strippedImageData image_data)

/-- Spec-side definition for C4: "the base64 payload following that
prefix" is everything after the first comma. -/
def afterFirstComma : List Char → List Char
  | [] => []
  | c :: cs => if c = ',' then cs else afterFirstComma cs

/-- Number of commas in the string (spec-side helper). -/
def countComma : List Char → ℕ
  | [] => 0
  | c :: cs => (if c = ',' then 1 else 0) + countComma cs

/-- The [0,1]-range invariant claimed for the configuration
thresholds. -/
abbrev inUnitRange (st : ConfigState) : Prop :=
  0 ≤ st.CONFIDENCE_THRESHOLD ∧ st.CONFIDENCE_THRESHOLD ≤ 1 ∧
    0 ≤ st.IOU_THRESHOLD ∧ st.IOU_THRESHOLD ≤ 1

/-! ### Structural lemmas about the loops -/

theorem processBox_eq_ite (imgH imgW : ℕ) (names : ModelNames) (b : RawBox) :
    processBox imgH imgW names b =
      if acceptBox imgH imgW b then some (emitBox names b) else none := by
  unfold processBox acceptBox
  by_cases h1 : b.x2 - b.x1 > MAX_BOX_SIZE ∨ b.y2 - b.y1 > MAX_BOX_SIZE
  · simp [h1]
  · by_cases h2 : b.x2 - b.x1 < MIN_BOX_SIZE ∨ b.y2 - b.y1 < MIN_BOX_SIZE
    · simp [h1, h2]
    · by_cases h3 :
        (b.x2 - b.x1) * (b.y2 - b.y1) / ((imgW : ℚ) * (imgH : ℚ)) >
          MAX_BOX_RATIO
      · simp [h1, h2, h3]
      · simp [h1, h2, h3]

theorem processBoxes_eq (imgH imgW : ℕ) (names : ModelNames)
    (acc : List Detection) (boxes : List RawBox) :
    processBoxes imgH imgW names acc boxes =
      acc ++ (boxes.filter (acceptBox imgH imgW)).map (emitBox names) := by
  induction boxes generalizing acc with
  | nil => simp [processBoxes]
  | cons b bs ih =>
      rw [processBoxes, List.foldl_cons, processBox_eq_ite]
      by_cases hb : acceptBox imgH imgW b = true
      · rw [if_pos hb]
        show processBoxes imgH imgW names (acc ++ [emitBox names b]) bs = _
        rw [ih]
        simp [hb]
      · rw [if_neg hb]
        show processBoxes imgH imgW names acc bs = _
        rw [ih]
        simp [hb]

theorem processResults_eq (imgH imgW : ℕ) (names : ModelNames)
    (results : YoloResults) :
    processResults imgH imgW names results =
      ((flattenResults results).filter (acceptBox imgH imgW)).map
        (emitBox names) := by
  suffices h : ∀ (acc : List Detection) (pre : List RawBox),
      acc = (pre.filter (acceptBox imgH imgW)).map (emitBox names) →
      results.foldl
          (fun acc ob =>
            match ob with
            | none => acc
            | some boxes => processBoxes imgH imgW names acc boxes)
          acc =
        (((results.foldl (fun acc ob => acc ++ ob.getD []) pre).filter
            (acceptBox imgH imgW)).map (emitBox names)) by
    have := h [] [] (by simp)
    simpa [processResults, flattenResults] using this
  induction results with
  | nil => intro acc pre hacc; simpa using hacc
  | cons ob rest ih =>
      intro acc pre hacc
      cases ob with
      | none =>
          simp only [List.foldl_cons, Option.getD_none, List.append_nil]
          exact ih acc pre hacc
      | some boxes =>
          simp only [List.foldl_cons, Option.getD_some]
          exact ih (processBoxes imgH imgW names acc boxes) (pre ++ boxes)
            (by rw [processBoxes_eq, hacc]; simp)

theorem splitComma_ne_nil (s : List Char) : splitComma s ≠ [] := by
  cases s with
  | nil => simp [splitComma]
  | cons c cs =>
      by_cases hc : c = ','
      · simp [splitComma, hc]
      · simp only [splitComma, hc, if_false]
        cases splitComma cs <;> simp

theorem splitComma_of_no_comma (s : List Char) (h : countComma s = 0) :
    splitComma s = [s] := by
  induction s with
  | nil => rfl
  | cons c cs ih =>
      by_cases hc : c = ','
      · simp [countComma, hc] at h
      · simp only [countComma, hc, if_false, Nat.zero_add] at h
        simp [splitComma, hc, ih h]

theorem countComma_pos_of_contains (s : List Char)
    (h : containsComma s = true) : 0 < countComma s := by
  induction s with
  | nil => simp [containsComma] at h
  | cons c cs ih =>
      by_cases hc : c = ','
      · simp [countComma, hc]
      · have hcs : containsComma cs = true := by
          cases hcc : containsComma cs
          · exfalso
            simp [containsComma, hc, hcc] at h
          · rfl
        have := ih hcs
        simp [countComma, hc]
        omega

theorem strippedImageData_atMostOneComma (s : List Char)
    (h : countComma s ≤ 1) :
    strippedImageData s =
      (if containsComma s then afterFirstComma s else s) := by
  induction s with
  | nil => rfl
  | cons c cs ih =>
      by_cases hc : c = ','
      · have hcnt : countComma cs = 0 := by
          simp only [countComma, hc, if_pos] at h
          omega
        have hsplit : splitComma cs = [cs] := splitComma_of_no_comma cs hcnt
        simp [strippedImageData, containsComma, splitComma, afterFirstComma,
          hc, hsplit]
      · have hcnt : countComma cs ≤ 1 := by
          simp only [countComma, hc, if_false, Nat.zero_add] at h
          exact h
        by_cases hcon : containsComma cs = true
        · have hcon2 : containsComma (c :: cs) = true := by
            simp [containsComma, hcon]
          obtain ⟨g, gs, hsp⟩ :
              ∃ g gs, splitComma cs = g :: gs := by
            cases hx : splitComma cs with
            | nil => exact absurd hx (splitComma_ne_nil cs)
            | cons g gs => exact ⟨g, gs, rfl⟩
          have ihv := ih hcnt
          simp only [strippedImageData, hcon, if_pos] at ihv
          simp only [strippedImageData, hcon2, if_pos, splitComma, hc,
            if_false, hsp, afterFirstComma]
          simpa [hsp] using ihv
        · have hcon2 : containsComma (c :: cs) = false := by
            simp [containsComma, hc, hcon]
          simp [strippedImageData, hcon2]

/-! ### Lemmas about the counting loop -/

theorem lookup_cons {β : Type} (a x : String) (y : β)
    (rest : List (String × β)) :
    ((x, y) :: rest).lookup a = if a = x then some y else rest.lookup a := by
  by_cases h : a = x
  · subst h
    simp [List.lookup]
  · simp [List.lookup, beq_false_of_ne h, h]

theorem lookup_append (l₁ l₂ : List (String × ℕ)) (a : String) :
    (l₁ ++ l₂).lookup a = ((l₁.lookup a) <|> (l₂.lookup a)) := by
  induction l₁ with
  | nil => simp [List.lookup]
  | cons p rest ih =>
      obtain ⟨x, y⟩ := p
      rw [List.cons_append, lookup_cons, lookup_cons]
      by_cases hax : a = x
      · simp [hax]
      · simp [hax, ih]

theorem lookup_map_bump (m : List (String × ℕ)) (k j : String) :
    (m.map (fun p => if p.1 = k then (p.1, p.2 + 1) else p)).lookup j =
      (m.lookup j).map (fun v => if j = k then v + 1 else v) := by
  induction m with
  | nil => simp [List.lookup]
  | cons p rest ih =>
      obtain ⟨a, b⟩ := p
      rw [List.map_cons]
      by_cases hak : a = k
      · have hhead :
            (if ((a, b) : String × ℕ).1 = k then
              (((a, b) : String × ℕ).1, ((a, b) : String × ℕ).2 + 1)
             else ((a, b) : String × ℕ)) = ((a, b + 1) : String × ℕ) := by
          simp [hak]
        rw [hhead, lookup_cons, lookup_cons]
        by_cases hja : j = a
        · have hjk : j = k := hja.trans hak
          simp [hja, hjk, hak]
        · simp [hja, ih]
      · have hhead :
            (if ((a, b) : String × ℕ).1 = k then
              (((a, b) : String × ℕ).1, ((a, b) : String × ℕ).2 + 1)
             else ((a, b) : String × ℕ)) = ((a, b) : String × ℕ) := by
          simp [hak]
        rw [hhead, lookup_cons, lookup_cons]
        by_cases hja : j = a
        · have hjk : ¬j = k := fun hh => hak ((hja.symm.trans hh))
          simp [hja, hjk, hak]
        · simp [hja, ih]

theorem any_eq_isSome_lookup (m : List (String × ℕ)) (k : String) :
    (m.any fun p => p.1 = k) = (m.lookup k).isSome := by
  induction m with
  | nil => simp [List.lookup]
  | cons p rest ih =>
      obtain ⟨a, b⟩ := p
      rw [List.any_cons, lookup_cons]
      by_cases hka : k = a
      · subst hka
        simp
      · have hak : ¬a = k := fun hh => hka hh.symm
        simp [hka, hak, ih]

theorem lookup_bumpCount (m : List (String × ℕ)) (k j : String) :
    (bumpCount m k).lookup j =
      if j = k then some ((m.lookup k).getD 0 + 1) else m.lookup j := by
  unfold bumpCount
  by_cases hany : (m.any fun p => p.1 = k) = true
  · have hsome : (m.lookup k).isSome := by
      rw [← any_eq_isSome_lookup]; exact hany
    obtain ⟨v, hv⟩ := Option.isSome_iff_exists.mp hsome
    rw [if_pos hany, lookup_map_bump]
    by_cases hjk : j = k
    · subst hjk
      simp [hv]
    · simp [hjk]
  · have hnone : m.lookup k = none := by
      cases hx : m.lookup k with
      | none => rfl
      | some v =>
          exfalso
          apply hany
          rw [any_eq_isSome_lookup, hx]
          rfl
    rw [if_neg hany, lookup_append, lookup_cons]
    by_cases hjk : j = k
    · subst hjk
      simp [hnone, List.lookup]
    · cases hx : m.lookup j with
      | none => simp [hjk, List.lookup]
      | some v => simp [hjk, List.lookup]

theorem getD_lookup_counts_go (dets : List Detection) (k : String)
    (m : List (String × ℕ)) :
    ((dets.foldl (fun m d => bumpCount m d.className) m).lookup k).getD 0 =
      (m.lookup k).getD 0 +
        (dets.filter fun d => d.className = k).length := by
  induction dets generalizing m with
  | nil => simp
  | cons d rest ih =>
      rw [List.foldl_cons, ih, lookup_bumpCount]
      by_cases hd : d.className = k
      · rw [if_pos hd.symm, List.filter_cons]
        simp only [hd, decide_eq_true_eq, eq_self_iff_true, if_true,
          List.length_cons, Option.getD_some]
        omega
      · rw [if_neg (fun hh => hd hh.symm)]
        simp [List.filter_cons, hd]

theorem isSome_lookup_counts_go (dets : List Detection) (k : String)
    (m : List (String × ℕ)) :
    ((dets.foldl (fun m d => bumpCount m d.className) m).lookup k).isSome ↔
      ((m.lookup k).isSome ∨
        (dets.filter fun d => d.className = k).length ≠ 0) := by
  induction dets generalizing m with
  | nil => simp
  | cons d rest ih =>
      rw [List.foldl_cons, ih, lookup_bumpCount]
      by_cases hd : d.className = k
      · rw [if_pos hd.symm, List.filter_cons]
        simp [hd]
      · rw [if_neg (fun hh => hd hh.symm)]
        simp [List.filter_cons, hd]

theorem lookup_countsOf (dets : List Detection) (k : String) :
    (countsOf dets).lookup k =
      (if (dets.filter fun d => d.className = k).length = 0 then none
       else some ((dets.filter fun d => d.className = k).length)) := by
  have hg := getD_lookup_counts_go dets k []
  have hs := isSome_lookup_counts_go dets k []
  rw [countsOf]
  by_cases hn : (dets.filter fun d => d.className = k).length = 0
  · rw [if_pos hn]
    cases hx : ((dets.foldl (fun m d => bumpCount m d.className)
        []).lookup k) with
    | none => rfl
    | some v =>
        exfalso
        rw [hx] at hs
        have := hs.mp (by simp)
        simp [List.lookup, hn] at this
  · rw [if_neg hn]
    cases hx : ((dets.foldl (fun m d => bumpCount m d.className)
        []).lookup k) with
    | none =>
        exfalso
        rw [hx] at hs
        have : (none : Option ℕ).isSome := hs.mpr (Or.inr hn)
        simp at this
    | some v =>
        rw [hx] at hg
        simp only [Option.getD_some, List.lookup] at hg
        rw [hg]
        simp [List.lookup]

/-! ### Claim theorems -/

/-- C1: for every raw box accepted by the post-processing pipeline, the
emitted `Detection` record carries the box confidence rounded to 3
decimal digits and each of the four coordinates rounded to 2 decimal
digits. -/
theorem C1_accepted_box_rounding (imgH imgW : ℕ) (names : ModelNames)
    (results : YoloResults) (b : RawBox)
    (hmem : b ∈ flattenResults results)
    (hacc : acceptBox imgH imgW b = true) :
    emitBox names b ∈ processResults imgH imgW names results ∧
    (emitBox names b).confidence = roundQ 3 b.conf ∧
    (emitBox names b).bbox =
      { x1 := roundQ 2 b.x1, y1 := roundQ 2 b.y1,
        x2 := roundQ 2 b.x2, y2 := roundQ 2 b.y2 } := by
  refine ⟨?_, rfl, rfl⟩
  rw [processResults_eq]
  exact List.mem_map_of_mem _ (List.mem_filter.mpr ⟨hmem, hacc⟩)

theorem C1_accepted_box_rounding_witness :
    emitBox (fun _ => none) ⟨10, 10, 50, 50, 1, 0⟩ ∈
        processResults 100 100 (fun _ => none)
          [some [⟨10, 10, 50, 50, 1, 0⟩]] ∧
    (emitBox (fun _ => none) ⟨10, 10, 50, 50, 1, 0⟩).confidence =
      roundQ 3 (⟨10, 10, 50, 50, 1, 0⟩ : RawBox).conf ∧
    (emitBox (fun _ => none) ⟨10, 10, 50, 50, 1, 0⟩).bbox =
      { x1 := roundQ 2 (⟨10, 10, 50, 50, 1, 0⟩ : RawBox).x1,
        y1 := roundQ 2 (⟨10, 10, 50, 50, 1, 0⟩ : RawBox).y1,
        x2 := roundQ 2 (⟨10, 10, 50, 50, 1, 0⟩ : RawBox).x2,
        y2 := roundQ 2 (⟨10, 10, 50, 50, 1, 0⟩ : RawBox).y2 } :=
  C1_accepted_box_rounding 100 100 (fun _ => none)
    [some [⟨10, 10, 50, 50, 1, 0⟩]] ⟨10, 10, 50, 50, 1, 0⟩
    (by with_unfolding_all decide) (by with_unfolding_all decide)

/-- C2: a raw box whose width or height is strictly below `MIN_BOX_SIZE`
contributes nothing to the pipeline output, regardless of its
confidence: the per-box step skips it, and the output over any
surrounding sequence equals the output with the box removed. -/
theorem C2_small_box_absent (imgH imgW : ℕ) (names : ModelNames)
    (pre post : List RawBox) (b : RawBox)
    (hsmall : b.x2 - b.x1 < MIN_BOX_SIZE ∨ b.y2 - b.y1 < MIN_BOX_SIZE) :
    processBox imgH imgW names b = none ∧
    processBoxes imgH imgW names [] (pre ++ b :: post) =
      processBoxes imgH imgW names [] (pre ++ post) := by
  have hacc : acceptBox imgH imgW b = false := by
    simp only [acceptBox, decide_eq_false_iff_not]
    intro hP
    exact hP.2.1 hsmall
  constructor
  · rw [processBox_eq_ite, hacc]
    simp
  · rw [processBoxes_eq, processBoxes_eq]
    simp [List.filter_append, List.filter_cons, hacc]

theorem C2_small_box_absent_witness :
    processBox 100 100 (fun _ => none) ⟨0, 0, 3, 10, 1, 0⟩ = none ∧
    processBoxes 100 100 (fun _ => none) []
        ([] ++ (⟨0, 0, 3, 10, 1, 0⟩ : RawBox) :: []) =
      processBoxes 100 100 (fun _ => none) [] ([] ++ []) :=
  C2_small_box_absent 100 100 (fun _ => none) [] [] ⟨0, 0, 3, 10, 1, 0⟩
    (by with_unfolding_all decide)

/-- C8: the pipeline output lists the accepted boxes in exactly the
order the detector emitted them: it is the image under the emission map
of the filtered raw sequence, which is a subsequence of the raw
sequence (no re-sorting). -/
theorem C8_emission_order (imgH imgW : ℕ) (names : ModelNames)
    (results : YoloResults) :
    processResults imgH imgW names results =
      ((flattenResults results).filter (acceptBox imgH imgW)).map
        (emitBox names) ∧
    List.Sublist ((flattenResults results).filter (acceptBox imgH imgW))
      (flattenResults results) :=
  ⟨processResults_eq imgH imgW names results, List.filter_sublist _⟩

/-- C9: the detection pipeline never mutates the configuration state,
and calling it twice with identical inputs and identical configuration
yields identical output. -/
theorem C9_pipeline_deterministic (st : ConfigState) (modelLoaded : Bool)
    (mc : ModelCall) (names : ModelNames) (image : RawImage) :
    (run_detection st modelLoaded mc names image).1 = st ∧
    run_detection (run_detection st modelLoaded mc names image).1
        modelLoaded mc names image =
      run_detection st modelLoaded mc names image := by
  have h1 : (run_detection st modelLoaded mc names image).1 = st := by
    rw [run_detection]
    cases modelLoaded
    · rfl
    · cases hmc : mc image st.CONFIDENCE_THRESHOLD st.IOU_THRESHOLD with
      | error e => simp [hmc]
      | ok results => simp [hmc]
  exact ⟨h1, by rw [h1]⟩

/-- C3: in every successful `/detect` response the `counts` field maps
each class name to exactly the number of detections bearing that name,
`total` equals the length of the detections list, and an empty raw box
list yields empty detections, empty counts and total 0. -/
theorem C3_counts_and_total :
    (∀ (dets : List Detection) (k : String),
      (countsOf dets).lookup k =
        (if (dets.filter fun d => d.className = k).length = 0 then none
         else some ((dets.filter fun d => d.className = k).length))) ∧
    (∀ (st : ConfigState) (data : List (String × String))
        (decode : Decoder) (mc : ModelCall) (names : ModelNames)
        (s : String) (img : RawImage) (results : YoloResults),
      data.lookup "image" = some s → decode s = some img →
      mc img st.CONFIDENCE_THRESHOLD st.IOU_THRESHOLD = .ok results →
      detect st true (some data) decode mc names =
        (st, .ok
          { success := true,
            detections := processResults img.height img.width names results,
            counts := countsOf
              (processResults img.height img.width names results),
            total := (processResults img.height img.width names results).length,
            width := img.width,
            height := img.height })) ∧
    (∀ (st : ConfigState) (data : List (String × String))
        (decode : Decoder) (mc : ModelCall) (names : ModelNames)
        (s : String) (img : RawImage),
      data.lookup "image" = some s → decode s = some img →
      mc img st.CONFIDENCE_THRESHOLD st.IOU_THRESHOLD = .ok [] →
      detect st true (some data) decode mc names =
        (st, .ok
          { success := true, detections := [], counts := [], total := 0,
            width := img.width, height := img.height })) := by
  refine ⟨lookup_countsOf, ?_, ?_⟩
  · intro st data decode mc names s img results h1 h2 h3
    simp [detect, run_detection, h1, h2, h3]
  · intro st data decode mc names s img h1 h2 h3
    simp [detect, run_detection, h1, h2, h3, processResults, countsOf]

theorem C3_counts_and_total_witness :
    (countsOf []).lookup "Bolt" =
      (if (List.filter (fun d => d.className = "Bolt")
            ([] : List Detection)).length = 0
       then none
       else some ((List.filter (fun d => d.className = "Bolt")
            ([] : List Detection)).length)) ∧
    detect initConfig true (some [("image", "payload")])
        (fun _ => some ⟨10, 10⟩) (fun _ _ _ => .ok []) (fun _ => none) =
      (initConfig, .ok
        { success := true, detections := [], counts := [], total := 0,
          width := 10, height := 10 }) :=
  ⟨C3_counts_and_total.1 [] "Bolt",
   C3_counts_and_total.2.2 initConfig [("image", "payload")]
     (fun _ => some ⟨10, 10⟩) (fun _ _ _ => .ok []) (fun _ => none)
     "payload" ⟨10, 10⟩ (by decide) rfl rfl⟩

/-- C5: a `/detect` request with no JSON body or no decodable image is
answered 400 with the error envelope and the pipeline is not invoked
(the response is the same for every decoder and detector); with the
model not loaded it is answered 503 with no pipeline invocation; and a
detector exception is caught and reported as 500 carrying the
underlying message. -/
theorem C5_detect_error_paths :
    (∀ (st : ConfigState) (body : Option (List (String × String)))
        (decode : Decoder) (mc : ModelCall) (names : ModelNames),
      detect st false body decode mc names =
        (st, .fail 503
          { success := false,
            error := "Model not loaded. Please check server logs.",
            detections := [] })) ∧
    (∀ (st : ConfigState) (decode : Decoder) (mc : ModelCall)
        (names : ModelNames),
      detect st true none decode mc names =
        (st, .fail 400
          { success := false,
            error := "No image data provided. Send JSON with \"image\" field containing base64 data.",
            detections := [] })) ∧
    (∀ (st : ConfigState) (data : List (String × String))
        (decode : Decoder) (mc : ModelCall) (names : ModelNames),
      data.lookup "image" = none →
      detect st true (some data) decode mc names =
        (st, .fail 400
          { success := false,
            error := "No image data provided. Send JSON with \"image\" field containing base64 data.",
            detections := [] })) ∧
    (∀ (st : ConfigState) (data : List (String × String))
        (decode : Decoder) (mc : ModelCall) (names : ModelNames)
        (s : String),
      data.lookup "image" = some s → decode s = none →
      detect st true (some data) decode mc names =
        (st, .fail 400
          { success := false,
            error := "Failed to decode image. Ensure valid base64 format.",
            detections := [] })) ∧
    (∀ (st : ConfigState) (data : List (String × String))
        (decode : Decoder) (mc : ModelCall) (names : ModelNames)
        (s : String) (img : RawImage) (e : String),
      data.lookup "image" = some s → decode s = some img →
      mc img st.CONFIDENCE_THRESHOLD st.IOU_THRESHOLD = .error e →
      detect st true (some data) decode mc names =
        (st, .fail 500
          { success := false,
            error := "Detection failed: " ++ e,
            detections := [] })) := by
  refine ⟨?_, ?_, ?_, ?_, ?_⟩
  · intro st body decode mc names
    cases body <;> simp [detect]
  · intro st decode mc names
    simp [detect]
  · intro st data decode mc names h1
    simp [detect, h1]
  · intro st data decode mc names s h1 h2
    simp [detect, h1, h2]
  · intro st data decode mc names s img e h1 h2 h3
    simp [detect, run_detection, h1, h2, h3]

theorem C5_detect_error_paths_witness :
    detect initConfig false (some [("image", "x")]) (fun _ => none)
        (fun _ _ _ => .ok []) (fun _ => none) =
      (initConfig, .fail 503
        { success := false,
          error := "Model not loaded. Please check server logs.",
          detections := [] }) ∧
    detect initConfig true none (fun _ => none) (fun _ _ _ => .ok [])
        (fun _ => none) =
      (initConfig, .fail 400
        { success := false,
          error := "No image data provided. Send JSON with \"image\" field containing base64 data.",
          detections := [] }) ∧
    detect initConfig true (some [("other", "x")]) (fun _ => none)
        (fun _ _ _ => .ok []) (fun _ => none) =
      (initConfig, .fail 400
        { success := false,
          error := "No image data provided. Send JSON with \"image\" field containing base64 data.",
          detections := [] }) ∧
    detect initConfig true (some [("image", "bad")]) (fun _ => none)
        (fun _ _ _ => .ok []) (fun _ => none) =
      (initConfig, .fail 400
        { success := false,
          error := "Failed to decode image. Ensure valid base64 format.",
          detections := [] }) ∧
    detect initConfig true (some [("image", "x")]) (fun _ => some ⟨10, 10⟩)
        (fun _ _ _ => .error "boom") (fun _ => none) =
      (initConfig, .fail 500
        { success := false,
          error := "Detection failed: " ++ "boom",
          detections := [] }) :=
  ⟨C5_detect_error_paths.1 initConfig (some [("image", "x")]) (fun _ => none)
      (fun _ _ _ => .ok []) (fun _ => none),
   C5_detect_error_paths.2.1 initConfig (fun _ => none) (fun _ _ _ => .ok [])
      (fun _ => none),
   C5_detect_error_paths.2.2.1 initConfig [("other", "x")] (fun _ => none)
      (fun _ _ _ => .ok []) (fun _ => none) (by decide),
   C5_detect_error_paths.2.2.2.1 initConfig [("image", "bad")]
      (fun _ => none) (fun _ _ _ => .ok []) (fun _ => none) "bad"
      (by decide) rfl,
   C5_detect_error_paths.2.2.2.2 initConfig [("image", "x")]
      (fun _ => some ⟨10, 10⟩) (fun _ _ _ => .error "boom") (fun _ => none)
      "x" ⟨10, 10⟩ "boom" (by decide) rfl rfl⟩

/-- C6: a configuration update sets exactly the recognized keys present
in the body (coerced to float), leaves the other field at its previous
value, ignores unrecognized keys, and a subsequent configuration read
returns the updated values. -/
theorem C6_config_update_read (st : ConfigState)
    (data : List (String × PyVal)) (a b : Option ℚ)
    (ha : data.lookup "confidence_threshold" = a.map PyVal.coercible)
    (hb : data.lookup "iou_threshold" = b.map PyVal.coercible) :
    update_config st data =
      ({ CONFIDENCE_THRESHOLD := a.getD st.CONFIDENCE_THRESHOLD,
         IOU_THRESHOLD := b.getD st.IOU_THRESHOLD },
       .ok (a.getD st.CONFIDENCE_THRESHOLD, b.getD st.IOU_THRESHOLD)) ∧
    get_config (update_config st data).1 =
      { confidence_threshold := a.getD st.CONFIDENCE_THRESHOLD,
        iou_threshold := b.getD st.IOU_THRESHOLD,
        input_size := INPUT_SIZE,
        class_names := CLASS_NAMES,
        class_colors := CLASS_COLORS } := by
  have hmain : update_config st data =
      ({ CONFIDENCE_THRESHOLD := a.getD st.CONFIDENCE_THRESHOLD,
         IOU_THRESHOLD := b.getD st.IOU_THRESHOLD },
       .ok (a.getD st.CONFIDENCE_THRESHOLD, b.getD st.IOU_THRESHOLD)) := by
    cases a with
    | none =>
        cases b with
        | none => simp [update_config, ha, hb]
        | some qb => simp [update_config, ha, hb, pyFloat]
    | some qa =>
        cases b with
        | none => simp [update_config, ha, hb, pyFloat]
        | some qb => simp [update_config, ha, hb, pyFloat]
  refine ⟨hmain, ?_⟩
  rw [hmain]
  rfl

theorem C6_config_update_read_witness :
    update_config initConfig
        [("confidence_threshold", PyVal.coercible 0.7)] =
      ({ CONFIDENCE_THRESHOLD := (some (0.7 : ℚ)).getD
           initConfig.CONFIDENCE_THRESHOLD,
         IOU_THRESHOLD := (none : Option ℚ).getD initConfig.IOU_THRESHOLD },
       .ok ((some (0.7 : ℚ)).getD initConfig.CONFIDENCE_THRESHOLD,
            (none : Option ℚ).getD initConfig.IOU_THRESHOLD)) ∧
    get_config (update_config initConfig
        [("confidence_threshold", PyVal.coercible 0.7)]).1 =
      { confidence_threshold := (some (0.7 : ℚ)).getD
          initConfig.CONFIDENCE_THRESHOLD,
        iou_threshold := (none : Option ℚ).getD initConfig.IOU_THRESHOLD,
        input_size := INPUT_SIZE,
        class_names := CLASS_NAMES,
        class_colors := CLASS_COLORS } :=
  C6_config_update_read initConfig
    [("confidence_threshold", PyVal.coercible 0.7)] (some 0.7) none
    (by with_unfolding_all decide) (by with_unfolding_all decide)

/-- C7 counterexample: the claimed invariant "the thresholds are always
floats in [0,1], preserved by every configuration update" is false on
the code: starting from the in-range initial configuration, the update
`{"confidence_threshold": 2}` is accepted unchecked and leaves the
threshold above 1. -/
theorem C7_counterexample :
    inUnitRange initConfig ∧
    ¬ inUnitRange
        (update_config initConfig
          [("confidence_threshold", PyVal.coercible 2)]).1 := by
  with_unfolding_all decide

/-- C7 (amended): the [0,1] invariant holds at initialization, and it
is preserved by a configuration update whenever every recognized value
that coerces successfully lies in [0,1] — the handler applies no range
validation of its own. -/
theorem C7_threshold_range (st : ConfigState)
    (data : List (String × PyVal))
    (hst : inUnitRange st)
    (hc : ∀ v q, data.lookup "confidence_threshold" = some v →
      pyFloat v = .ok q → 0 ≤ q ∧ q ≤ 1)
    (hi : ∀ v q, data.lookup "iou_threshold" = some v →
      pyFloat v = .ok q → 0 ≤ q ∧ q ≤ 1) :
    inUnitRange initConfig ∧ inUnitRange (update_config st data).1 := by
  constructor
  · refine ⟨?_, ?_, ?_, ?_⟩ <;>
      norm_num [initConfig, CONFIDENCE_THRESHOLD_INIT, IOU_THRESHOLD_INIT]
  · unfold update_config
    cases hx : data.lookup "confidence_threshold" with
    | none =>
        cases hy : data.lookup "iou_threshold" with
        | none => exact hst
        | some v =>
            cases hv : pyFloat v with
            | error e =>
                simp only [hv]
                exact hst
            | ok q =>
                have hq := hi v q hy hv
                simp only [hv]
                exact ⟨hst.1, hst.2.1, hq.1, hq.2⟩
    | some v =>
        cases hv : pyFloat v with
        | error e =>
            simp only [hv]
            exact hst
        | ok q =>
            have hq := hc v q hx hv
            simp only [hv]
            cases hy : data.lookup "iou_threshold" with
            | none => exact ⟨hq.1, hq.2, hst.2.2.1, hst.2.2.2⟩
            | some w =>
                cases hw : pyFloat w with
                | error e =>
                    simp only [hw]
                    exact ⟨hq.1, hq.2, hst.2.2.1, hst.2.2.2⟩
                | ok r =>
                    have hr := hi w r hy hw
                    simp only [hw]
                    exact ⟨hq.1, hq.2, hr.1, hr.2⟩

theorem C7_threshold_range_witness :
    inUnitRange initConfig ∧
    inUnitRange
      (update_config initConfig
        [("iou_threshold", PyVal.coercible (1/4))]).1 :=
  C7_threshold_range initConfig
    [("iou_threshold", PyVal.coercible (1/4))]
    (by with_unfolding_all decide)
    (by
      intro v q h1 h2
      rw [show List.lookup "confidence_threshold"
          [("iou_threshold", PyVal.coercible (1/4))] =
          (none : Option PyVal) from by with_unfolding_all decide] at h1
      exact Option.noConfusion h1)
    (by
      intro v q h1 h2
      rw [show List.lookup "iou_threshold"
          [("iou_threshold", PyVal.coercible (1/4))] =
          some (PyVal.coercible (1/4)) from by
            with_unfolding_all decide] at h1
      injection h1 with h1v
      subst h1v
      injection h2 with h2q
      subst h2q
      with_unfolding_all decide)

/-- C10: the configuration update is not atomic across fields: when the
body holds a coercible `confidence_threshold` and an uncoercible
`iou_threshold`, the handler raises after the first assignment, leaving
`confidence_threshold` updated and `iou_threshold` unchanged when the
500 error response is produced. -/
theorem C10_non_atomic_update (st : ConfigState)
    (data : List (String × PyVal)) (q : ℚ) (v : PyVal) (e : String)
    (h1 : data.lookup "confidence_threshold" = some (PyVal.coercible q))
    (h2 : data.lookup "iou_threshold" = some v)
    (h3 : pyFloat v = .error e) :
    update_config st data =
      ({ CONFIDENCE_THRESHOLD := q, IOU_THRESHOLD := st.IOU_THRESHOLD },
       .error e) ∧
    server_error e = (("Internal server error", e), 500) := by
  constructor
  · simp only [update_config, h1, h2, h3]
    rfl
  · rfl

theorem C10_non_atomic_update_witness :
    update_config initConfig
        [("confidence_threshold", PyVal.coercible 0.7),
         ("iou_threshold", PyVal.uncoercible)] =
      ({ CONFIDENCE_THRESHOLD := 0.7,
         IOU_THRESHOLD := initConfig.IOU_THRESHOLD },
       .error "could not convert to float") ∧
    server_error "could not convert to float" =
      (("Internal server error", "could not convert to float"), 500) :=
  C10_non_atomic_update initConfig
    [("confidence_threshold", PyVal.coercible 0.7),
     ("iou_threshold", PyVal.uncoercible)]
    0.7 PyVal.uncoercible "could not convert to float"
    (by with_unfolding_all decide) (by with_unfolding_all decide) rfl

/-- C4 counterexample: the claim "the bytes decoded are exactly the
base64 payload following the first comma" fails on the code for an
input with two commas: `split(',')[1]` keeps only the segment between
the first and the second comma. -/
theorem C4_counterexample :
    containsComma ['a', ',', 'b', ',', 'c'] = true ∧
    strippedImageData ['a', ',', 'b', ',', 'c'] ≠
      afterFirstComma ['a', ',', 'b', ',', 'c'] := by
  decide

/-- C4 (amended): for every ingestion input containing at most one
comma, the bytes decoded are exactly the payload following the
data-URL prefix — the whole string when no comma is present; with two
or more commas the code keeps only the segment between the first and
second comma. -/
theorem C4_data_url_strip (s : List Char) (h : countComma s ≤ 1) :
    strippedImageData s =
      (if containsComma s then afterFirstComma s else s) ∧
    ∀ chain : List Char → Option RawImage,
      decode_image chain s =
        chain (if containsComma s then afterFirstComma s else s) := by
  have hmain := strippedImageData_atMostOneComma s h
  exact ⟨hmain, fun chain => by rw [decode_image, hmain]⟩

theorem C4_data_url_strip_witness :
    strippedImageData ['d', ':', ',', 'x', 'y'] =
      (if containsComma ['d', ':', ',', 'x', 'y'] then
        afterFirstComma ['d', ':', ',', 'x', 'y']
       else ['d', ':', ',', 'x', 'y']) ∧
    ∀ chain : List Char → Option RawImage,
      decode_image chain ['d', ':', ',', 'x', 'y'] =
        chain (if containsComma ['d', ':', ',', 'x', 'y'] then
          afterFirstComma ['d', ':', ',', 'x', 'y']
         else ['d', ':', ',', 'x', 'y']) :=
  C4_data_url_strip ['d', ':', ',', 'x', 'y'] (by decide)

end NutBolt
